import Mathlib

/-
  Shallow embedding of the gbrfl maintenance scripts (fantasy-football
  database cleanup utilities) and verification of the frozen claims about
  them.  Each section embeds the Python functions of one script; machine
  integers are modelled as Int (Python ints are unbounded), pandas cells
  that may be NaN are modelled by the PVal type below, and database tables
  are lists of rows.
-/

namespace GBRFL

/-! Shared string helpers: Python substring containment (the in operator). -/

/-- Boolean test that pat occurs as a contiguous substring of the character list. -/
def listContains (pat : List Char) : List Char → Bool
  | [] => pat.isEmpty
  | c :: t => pat.isPrefixOf (c :: t) || listContains pat t

/-- Model of the Python expression pat in s (substring containment). -/
def strContains (s pat : String) : Bool := listContains pat.toList s.toList

/-- Model of Python str.lower() (the descriptions involved are ASCII). -/
def pyLower (s : String) : String := String.mk (s.toList.map Char.toLower)

/-! ## src/scripts/import_player_stats.py — fumble attribution (C1)

A pandas cell read with play.get(column) is either NaN or a string value;
PVal models that domain.  Python semantics that matter here: bool(nan) is
True, nan == x is False for every x (including nan), and a nonempty string
is truthy. -/

/-- A pandas cell value: NaN or a string. -/
inductive PVal where
  | nan : PVal
  | str : String → PVal
deriving DecidableEq

/-- Model of pd.isna on a cell. -/
def PVal.isna : PVal → Bool
  | .nan => true
  | .str _ => false

/-- Python == between a cell and a plain string: NaN compares unequal to everything. -/
def PVal.eqStr : PVal → String → Bool
  | .nan, _ => false
  | .str s, t => s == t

/-- Python == between two cells: any comparison involving NaN is False. -/
def PVal.eqv : PVal → PVal → Bool
  | .str s, .str t => s == t
  | _, _ => false

/-- Python truthiness of a cell: NaN is truthy, a string is truthy iff nonempty. -/
def PVal.truthy : PVal → Bool
  | .nan => true
  | .str s => !(s == "")

/-- Python a or b on cells: the first operand if truthy, else the second. -/
def pyOr (a b : PVal) : PVal := if a.truthy then a else b

/-- The fields of a play-by-play row that calculate_fumble_lost_attribution reads. -/
structure Play where
  desc : String
  fumble_recovery_1_team : PVal
  fumble_recovery_2_team : PVal
  fumbled_1_player_id : PVal
  fumbled_2_player_id : PVal
  fumble_recovery_1_player_id : PVal
  fumble_lost : Int
deriving DecidableEq

/-- Embedding of calculate_fumble_lost_attribution (import_player_stats.py,
lines 98-157): per-fumbler attribution of a lost fumble. -/
def calculate_fumble_lost_attribution (play : Play) (player_id team : String)
    (fumbler_number : Nat) : Int :=
  let desc := pyLower play.desc
  if fumbler_number == 1 then
    -- If no recovery info, use play-level fumble_lost
    if play.fumble_recovery_1_team.isna then play.fumble_lost
    -- Complex lateral play detection
    else if strContains desc "lateral" && !play.fumbled_2_player_id.isna
        && play.fumble_recovery_1_team.eqStr team
        && play.fumble_recovery_2_team.eqStr team
        && (play.fumble_lost == 1) then play.fumble_lost
    -- Same-player double fumble detection
    else if ((strContains desc "fumbles" && strContains desc "recovers"
            && strContains desc "fumbles")
          || (strContains desc "fumbles (aborted)" && strContains desc "recovers"
            && strContains desc "fumbles"))
        && play.fumbled_2_player_id.isna then
      let final_recovery_team := pyOr play.fumble_recovery_2_team play.fumble_recovery_1_team
      if final_recovery_team.eqStr team then 0 else 1
    -- Multi-player fumble individual attribution
    else if !play.fumbled_2_player_id.isna then
      if play.fumble_recovery_1_team.eqStr team then 0 else 1
    -- Single player with second recovery
    else if !play.fumble_recovery_2_team.isna then
      if play.fumble_recovery_2_team.eqStr team then 0 else 1
    -- Standard case: use first recovery
    else if play.fumble_recovery_1_team.eqStr team then 0 else 1
  else
    -- Complex lateral play detection
    if strContains desc "lateral" && play.fumble_recovery_1_team.eqStr team
        && play.fumble_recovery_2_team.eqStr team
        && (play.fumble_lost == 1) then play.fumble_lost
    -- Special touchback case for recoverer who fumbles
    else if play.fumble_recovery_2_team.isna
        && PVal.eqv (PVal.str player_id) play.fumble_recovery_1_player_id
        && !(PVal.eqv play.fumbled_1_player_id play.fumbled_2_player_id) then
      if strContains desc "touchback" then 1 else 0
    -- If no second recovery, use play-level fumble_lost
    else if play.fumble_recovery_2_team.isna then play.fumble_lost
    -- Use second recovery for attribution
    else if play.fumble_recovery_2_team.eqStr team then 0 else 1

/-- Claim C1: for the first fumbler, when a first recovery team is recorded,
no second fumbler and no second recovery team exist, and the lower-cased
description does not contain both fumbles and recovers, attribution is 0
iff the first recovery team equals the fumbler team. -/
theorem fumble_attribution_standard_case (play : Play) (player_id team r : String)
    (h1 : play.fumble_recovery_1_team = PVal.str r)
    (h2 : play.fumbled_2_player_id = PVal.nan)
    (h3 : play.fumble_recovery_2_team = PVal.nan)
    (h4 : ¬(strContains (pyLower play.desc) "fumbles" = true
          ∧ strContains (pyLower play.desc) "recovers" = true)) :
    calculate_fumble_lost_attribution play player_id team 1
      = if r = team then 0 else 1 := by
  unfold calculate_fumble_lost_attribution
  rcases hf : strContains (pyLower play.desc) "fumbles" with _ | _
  · simp [h1, h2, h3, hf, PVal.isna, PVal.eqStr, beq_iff_eq]
  · rcases hr : strContains (pyLower play.desc) "recovers" with _ | _
    · simp [h1, h2, h3, hf, hr, PVal.isna, PVal.eqStr, beq_iff_eq]
    · exact absurd ⟨hf, hr⟩ h4

/-- Witness for C1 at a concrete play. -/
theorem fumble_attribution_standard_case_witness :
    calculate_fumble_lost_attribution
      { desc := "Sack, strip by the edge rusher",
        fumble_recovery_1_team := PVal.str "KC",
        fumble_recovery_2_team := PVal.nan,
        fumbled_1_player_id := PVal.str "00-0033873",
        fumbled_2_player_id := PVal.nan,
        fumble_recovery_1_player_id := PVal.str "00-0035662",
        fumble_lost := 0 } "00-0033873" "KC" 1 = 0 := by
  have h := fumble_attribution_standard_case
    { desc := "Sack, strip by the edge rusher",
      fumble_recovery_1_team := PVal.str "KC",
      fumble_recovery_2_team := PVal.nan,
      fumbled_1_player_id := PVal.str "00-0033873",
      fumbled_2_player_id := PVal.nan,
      fumble_recovery_1_player_id := PVal.str "00-0035662",
      fumble_lost := 0 } "00-0033873" "KC" "KC" rfl rfl rfl (by decide)
  simpa using h

/-! ## Decimal digit strings: models of Python str(n) and int(digits) -/

/-- Decimal digit character for a value in 0..9. -/
def digitChar : Nat → Char
  | 0 => '0' | 1 => '1' | 2 => '2' | 3 => '3' | 4 => '4'
  | 5 => '5' | 6 => '6' | 7 => '7' | 8 => '8' | _ => '9'

/-- Numeric value of a digit character. -/
def digitVal (c : Char) : Nat := c.toNat - 48

/-- Model of Python str(n) for a nonnegative integer: its decimal digits,
most significant first. -/
def natStr (n : Nat) : List Char :=
  if n < 10 then [digitChar n]
  else natStr (n / 10) ++ [digitChar (n % 10)]
decreasing_by exact Nat.div_lt_self (by omega) (by omega)

/-- Model of Python int(s) on a string of decimal digits. -/
def digitsVal (cs : List Char) : Nat :=
  cs.foldl (fun a c => 10 * a + digitVal c) 0

theorem digitVal_digitChar (d : Nat) (hd : d < 10) : digitVal (digitChar d) = d := by
  interval_cases d <;> rfl

theorem digitChar_isDigit (d : Nat) (hd : d < 10) : (digitChar d).isDigit = true := by
  interval_cases d <;> rfl

theorem natStr_ne_nil (n : Nat) : natStr n ≠ [] := by
  rw [natStr]
  split <;> simp

theorem natStr_all_digits (n : Nat) : ∀ c ∈ natStr n, c.isDigit = true := by
  induction n using natStr.induct with
  | case1 n h =>
    rw [natStr, if_pos h]
    intro c hc
    simp only [List.mem_singleton] at hc
    subst hc
    exact digitChar_isDigit n h
  | case2 n h ih =>
    rw [natStr, if_neg h]
    intro c hc
    rcases List.mem_append.1 hc with hc1 | hc2
    · exact ih c hc1
    · simp only [List.mem_singleton] at hc2
      subst hc2
      exact digitChar_isDigit _ (Nat.mod_lt _ (by omega))

theorem digitsVal_natStr (n : Nat) : digitsVal (natStr n) = n := by
  induction n using natStr.induct with
  | case1 n h =>
    rw [natStr, if_pos h]
    simp [digitsVal, digitVal_digitChar n h]
  | case2 n h ih =>
    rw [natStr, if_neg h]
    unfold digitsVal
    rw [List.foldl_append]
    unfold digitsVal at ih
    simp only [List.foldl_cons, List.foldl_nil, ih,
      digitVal_digitChar _ (Nat.mod_lt _ (by omega : 0 < 10))]
    omega

theorem takeWhile_eq_self_of_all {p : Char → Bool} :
    ∀ (l : List Char), (∀ c ∈ l, p c = true) → l.takeWhile p = l := by
  intro l
  induction l with
  | nil => intro _; rfl
  | cons c t ih =>
    intro h
    have hc := h c (List.mem_cons_self c t)
    simp [List.takeWhile_cons, hc, ih (fun x hx => h x (List.mem_cons_of_mem c hx))]

theorem toList_append_eq (a b : String) : (a ++ b).toList = a.toList ++ b.toList :=
  String.data_append a b

theorem isPrefixOf_append_self (p l : List Char) : p.isPrefixOf (p ++ l) = true := by
  induction p with
  | nil => simp [List.isPrefixOf]
  | cons c t ih => simp [List.isPrefixOf, ih]

/-! ## src/generate_restoration_sql.py — parse_position_info (C5, C9)

The regular expressions involved are of the shape QB(\d+): the label must
start with the literal prefix and continue with at least one decimal digit;
the captured group is the maximal digit run after the prefix (the
descriptions involved are ASCII, so \d is Char.isDigit). -/

/-- Numbered-format table of parse_position_info, in source order:
pattern prefix and database position type. -/
def numberedPatterns : List (List Char × String) :=
  [("QB".toList, "quarterback"), ("RB".toList, "running_back"),
   ("RC".toList, "receiver"), ("PK".toList, "place_kicker"),
   ("DEF".toList, "defense")]

/-- Model of re.match against a numbered pattern such as QB(\d+), returning
the integer value of the captured digit group on success. -/
def matchNumbered (pre : List Char) (label : List Char) : Option Nat :=
  if pre.isPrefixOf label then
    let digs := (label.drop pre.length).takeWhile Char.isDigit
    if digs.isEmpty then none else some (digitsVal digs)
  else none

/-- Simple-format mapping of parse_position_info (exact labels). -/
def simple_mapping : List (String × String) :=
  [("QB", "quarterback"), ("RB", "running_back"), ("RC", "receiver"),
   ("PK", "place_kicker"), ("DEF", "defense")]

/-- Embedding of parse_position_info (generate_restoration_sql.py lines
10-47): numbered patterns are tried in source order, then the simple
mapping, with fallback (other, 1). -/
def parse_position_info (position_label : String) : String × Nat :=
  match numberedPatterns.findSome?
      (fun pr => (matchNumbered pr.1 position_label.toList).map (fun n => (pr.2, n))) with
  | some r => r
  | none =>
    match simple_mapping.find? (fun p => p.1 == position_label) with
    | some p => (p.2, 1)
    | none => ("other", 1)

/-! ## src/scripts/export_lineup_submissions.py — format_position_label (C5) -/

/-- Model of Python str.upper() for ASCII strings. -/
def pyUpper (s : String) : String := String.mk (s.toList.map Char.toUpper)

/-- The position_map dictionary of format_position_label. -/
def position_map : List (String × String) :=
  [("quarterback", "QB"), ("running_back", "RB"), ("receiver", "RC"),
   ("place_kicker", "PK"), ("defense", "DEF")]

/-- Embedding of format_position_label (export_lineup_submissions.py lines
125-134): the mapped prefix (or the upper-cased type as fallback) followed
by the decimal digits of the sort order. -/
def format_position_label (position_type : String) (sort_order : Nat) : String :=
  (((position_map.find? (fun p => p.1 == position_type)).map Prod.snd).getD
    (pyUpper position_type)) ++ String.mk (natStr sort_order)

theorem matchNumbered_prefix_digits (pre : List Char) (n : Nat) :
    matchNumbered pre (pre ++ natStr n) = some n := by
  unfold matchNumbered
  rw [if_pos (isPrefixOf_append_self pre (natStr n))]
  rw [List.drop_left]
  rw [takeWhile_eq_self_of_all (natStr n) (natStr_all_digits n)]
  rw [if_neg (by simpa [List.isEmpty_iff] using natStr_ne_nil n)]
  rw [digitsVal_natStr]

/-- Claim C5: parsing a formatted label is the identity on the five
database position types, for every sort order at least 1. -/
theorem parse_format_position_roundtrip (t : String) (n : Nat)
    (ht : t ∈ ["quarterback", "running_back", "receiver", "place_kicker", "defense"])
    (hn : 1 ≤ n) :
    parse_position_info (format_position_label t n) = (t, n) := by
  have hQ : ∀ m : Nat, ("QB" ++ String.mk (natStr m)).toList = "QB".toList ++ natStr m := by
    intro m; simp [toList_append_eq]
  have hR : ∀ m : Nat, ("RB" ++ String.mk (natStr m)).toList = "RB".toList ++ natStr m := by
    intro m; simp [toList_append_eq]
  have hC : ∀ m : Nat, ("RC" ++ String.mk (natStr m)).toList = "RC".toList ++ natStr m := by
    intro m; simp [toList_append_eq]
  have hP : ∀ m : Nat, ("PK" ++ String.mk (natStr m)).toList = "PK".toList ++ natStr m := by
    intro m; simp [toList_append_eq]
  have hD : ∀ m : Nat, ("DEF" ++ String.mk (natStr m)).toList = "DEF".toList ++ natStr m := by
    intro m; simp [toList_append_eq]
  have hdig : ∀ m : Nat, (natStr m).takeWhile Char.isDigit = natStr m :=
    fun m => takeWhile_eq_self_of_all (natStr m) (natStr_all_digits m)
  have hne : ∀ m : Nat, ((natStr m).isEmpty) = false := by
    intro m; simpa [List.isEmpty_iff] using natStr_ne_nil m
  simp only [List.mem_cons, List.mem_singleton, List.not_mem_nil, or_false] at ht
  rcases ht with rfl | rfl | rfl | rfl | rfl <;>
    simp [parse_position_info, format_position_label, position_map,
      numberedPatterns, List.findSome?, matchNumbered, List.isPrefixOf,
      hQ, hR, hC, hP, hD, hdig, hne, isPrefixOf_append_self,
      List.drop_left, digitsVal_natStr]

/-- Witness for C5 at the concrete label DEF2. -/
theorem parse_format_position_roundtrip_witness :
    parse_position_info (format_position_label "defense" 2) = ("defense", 2) :=
  parse_format_position_roundtrip "defense" 2 (by simp) (by omega)

/-! ## src/generate_restoration_sql.py — load_csv_with_sort_order (C9)

The Python counter dictionary is keyed by the string
team_id underscore week underscore position_type; decimal integer
representations contain no underscore, so that key is injective in the
triple and the embedding keys the counters by the triple directly. -/

/-- Model of Python str.strip() for ASCII strings. -/
def pyStrip (s : String) : String :=
  String.mk (((s.toList.dropWhile Char.isWhitespace).reverse.dropWhile
    Char.isWhitespace).reverse)

/-- A row of the lineup CSV as generate_restoration_sql.py reads it. -/
structure CsvLineupRow where
  week : Int
  game_type : String
  team_id : Int
  team_name : String
  position : String
  player : String
  espn_id : String
deriving DecidableEq

/-- An entry of the list load_csv_with_sort_order returns. -/
structure LineupEntry where
  week : Int
  game_type : String
  team_id : Int
  team_name : String
  position_label : String
  player_name : String
  espn_id : String
  position_type : String
  sort_order : Nat
deriving DecidableEq

/-- Counter key: team_id, week, position_type. -/
abbrev CKey := Int × Int × String

/-- position_counters.get(key, 0): the first binding of the key, or 0. -/
def getCount (cnt : List (CKey × Nat)) (k : CKey) : Nat :=
  (((cnt.find? (fun e => e.1 == k)).map Prod.snd).getD 0)

/-- The simple Week-2 position labels. -/
def simpleLabels : List String := ["QB", "RB", "RC", "PK", "DEF"]

/-- The output record built for one CSV row (generate_restoration_sql.py
lines 72-82). -/
def mkEntry (r : CsvLineupRow) (ptype : String) (so : Nat) : LineupEntry :=
  { week := r.week, game_type := r.game_type, team_id := r.team_id,
    team_name := r.team_name, position_label := r.position,
    player_name := r.player,
    espn_id := if r.espn_id == "" then "" else pyStrip r.espn_id,
    position_type := ptype, sort_order := so }

/-- The row loop of load_csv_with_sort_order (generate_restoration_sql.py
lines 56-82), carrying the counter dictionary. -/
def loadRows : List CsvLineupRow → List (CKey × Nat) → List LineupEntry
  | [], _ => []
  | r :: rs, cnt =>
    if r.position == "HeadCoach" then loadRows rs cnt
    else
      let pr := parse_position_info r.position
      if simpleLabels.contains r.position then
        let k : CKey := (r.team_id, r.week, pr.1)
        let c := getCount cnt k + 1
        mkEntry r pr.1 c :: loadRows rs ((k, c) :: cnt)
      else
        mkEntry r pr.1 pr.2 :: loadRows rs cnt

/-- Embedding of load_csv_with_sort_order (generate_restoration_sql.py
lines 49-84). -/
def load_csv_with_sort_order (rows : List CsvLineupRow) : List LineupEntry :=
  loadRows rows []

/-- An output entry carries a simple position label. -/
def isSimpleLabel (e : LineupEntry) : Bool := simpleLabels.contains e.position_label

/-- The counter key of an output entry. -/
def entryKey (e : LineupEntry) : CKey := (e.team_id, e.week, e.position_type)

/-- Number of simple-label entries of a list holding a given counter key. -/
def countSimpleKey (l : List LineupEntry) (k : CKey) : Nat :=
  (l.filter (fun e => isSimpleLabel e && (entryKey e == k))).length

theorem countSimpleKey_cons (e : LineupEntry) (l : List LineupEntry) (k : CKey) :
    countSimpleKey (e :: l) k
      = (if isSimpleLabel e && (entryKey e == k) then 1 else 0) + countSimpleKey l k := by
  cases h : (isSimpleLabel e && (entryKey e == k)) <;>
    simp [countSimpleKey, List.filter_cons, h, Nat.add_comm]

theorem countSimpleKey_cons_simple (e : LineupEntry) (l : List LineupEntry) (k : CKey)
    (hs : isSimpleLabel e = true) :
    countSimpleKey (e :: l) k = (if entryKey e = k then 1 else 0) + countSimpleKey l k := by
  rw [countSimpleKey_cons, hs]
  by_cases hk : entryKey e = k
  · simp [hk]
  · simp [hk]

theorem countSimpleKey_cons_numbered (e : LineupEntry) (l : List LineupEntry) (k : CKey)
    (hs : isSimpleLabel e = false) :
    countSimpleKey (e :: l) k = countSimpleKey l k := by
  rw [countSimpleKey_cons, hs]
  simp

theorem getCount_cons (k0 k : CKey) (c : Nat) (cnt : List (CKey × Nat)) :
    getCount ((k0, c) :: cnt) k = if k = k0 then c else getCount cnt k := by
  by_cases h : k = k0
  · subst h; simp [getCount, List.find?]
  · have hb : (k0 == k) = false := by
      simp [beq_iff_eq]
      exact fun hh => h hh.symm
    simp [getCount, List.find?, hb, h]

theorem isSimpleLabel_mkEntry (r : CsvLineupRow) (pt : String) (so : Nat) :
    isSimpleLabel (mkEntry r pt so) = simpleLabels.contains r.position := rfl

theorem entryKey_mkEntry (r : CsvLineupRow) (pt : String) (so : Nat) :
    entryKey (mkEntry r pt so) = (r.team_id, r.week, pt) := rfl

/-- Invariant lemma for the row loop: a simple-label entry at position i of
the produced list has sort order equal to the initial counter value of its
key plus the number of simple same-key entries up to and including itself;
a numbered entry keeps the digits parsed from its label. -/
theorem loadRows_sort_order (rows : List CsvLineupRow) :
    ∀ (cnt : List (CKey × Nat)) (i : Nat) (e : LineupEntry),
      (loadRows rows cnt)[i]? = some e →
      (isSimpleLabel e = true →
        e.sort_order
          = getCount cnt (entryKey e)
            + countSimpleKey ((loadRows rows cnt).take (i + 1)) (entryKey e))
      ∧ (isSimpleLabel e = false →
        e.sort_order = (parse_position_info e.position_label).2) := by
  induction rows with
  | nil => intro cnt i e h; simp [loadRows] at h
  | cons r rs ih =>
    intro cnt i e h
    by_cases hhc : (r.position == "HeadCoach") = true
    · rw [loadRows, if_pos hhc] at h ⊢
      exact ih cnt i e h
    · by_cases hsl : simpleLabels.contains r.position = true
      · rw [loadRows, if_neg hhc, if_pos hsl] at h ⊢
        cases i with
        | zero =>
          simp only [List.getElem?_cons_zero, Option.some.injEq] at h
          subst h
          constructor
          · intro _
            rw [List.take_succ_cons, List.take_zero,
              countSimpleKey_cons_simple _ _ _ (by rw [isSimpleLabel_mkEntry]; exact hsl),
              entryKey_mkEntry, if_pos rfl]
            have hnil : countSimpleKey [] (r.team_id, r.week,
                (parse_position_info r.position).1) = 0 := rfl
            rw [hnil]
            rfl
          · intro hns
            rw [isSimpleLabel_mkEntry, hsl] at hns
            cases hns
        | succ j =>
          simp only [List.getElem?_cons_succ] at h
          have IH := ih _ j e h
          refine ⟨fun hse => ?_, IH.2⟩
          have h1 := IH.1 hse
          rw [getCount_cons] at h1
          rw [List.take_succ_cons,
            countSimpleKey_cons_simple _ _ _ (by rw [isSimpleLabel_mkEntry]; exact hsl),
            entryKey_mkEntry]
          by_cases hk : entryKey e = (r.team_id, r.week, (parse_position_info r.position).1)
          · rw [if_pos hk] at h1
            rw [if_pos hk.symm]
            rw [hk] at h1 ⊢
            omega
          · rw [if_neg hk] at h1
            rw [if_neg (fun hh => hk hh.symm)]
            omega
      · rw [loadRows, if_neg hhc, if_neg hsl] at h ⊢
        cases i with
        | zero =>
          simp only [List.getElem?_cons_zero, Option.some.injEq] at h
          subst h
          constructor
          · intro hse
            rw [isSimpleLabel_mkEntry] at hse
            exact absurd hse hsl
          · intro _
            rfl
        | succ j =>
          simp only [List.getElem?_cons_succ] at h
          have IH := ih cnt j e h
          refine ⟨fun hse => ?_, IH.2⟩
          have h1 := IH.1 hse
          rw [List.take_succ_cons,
            countSimpleKey_cons_numbered _ _ _ (by rw [isSimpleLabel_mkEntry]; simpa using hsl)]
          exact h1

/-- Claim C9: in the list load_csv_with_sort_order returns, a simple-label
entry (QB, RB, RC, PK, DEF) at position i has sort order equal to its
occurrence index, counting from 1, among the simple-label entries with the
same team, week and position type, while a numbered entry takes its sort
order from the digits of its label. -/
theorem load_csv_sort_order_occurrence (rows : List CsvLineupRow) (i : Nat)
    (e : LineupEntry) (h : (load_csv_with_sort_order rows)[i]? = some e) :
    (isSimpleLabel e = true →
      e.sort_order
        = countSimpleKey ((load_csv_with_sort_order rows).take (i + 1)) (entryKey e))
    ∧ (isSimpleLabel e = false →
      e.sort_order = (parse_position_info e.position_label).2) := by
  have := loadRows_sort_order rows [] i e h
  simpa [load_csv_with_sort_order, getCount] using this

/-- A Week-2 style CSV row used as a concrete input. -/
def demoRow1 : CsvLineupRow :=
  { week := 2, game_type := "primary", team_id := 1, team_name := "Dick Six",
    position := "QB", player := "Patrick Mahomes", espn_id := "3139477" }

/-- A second Week-2 style CSV row with the same team, week and position type. -/
def demoRow2 : CsvLineupRow :=
  { week := 2, game_type := "primary", team_id := 1, team_name := "Dick Six",
    position := "QB", player := "Josh Allen", espn_id := "3918298" }

/-- Witness for C9: the second QB row of the same team and week gets sort order 2. -/
theorem load_csv_sort_order_occurrence_witness :
    (mkEntry demoRow2 "quarterback" 2).sort_order
      = countSimpleKey ((load_csv_with_sort_order [demoRow1, demoRow2]).take 2)
          (entryKey (mkEntry demoRow2 "quarterback" 2)) := by
  have h := load_csv_sort_order_occurrence [demoRow1, demoRow2] 1
    (mkEntry demoRow2 "quarterback" 2) (by decide)
  exact h.1 (by decide)

/-! ## src/generate_restoration_sql.py and src/scripts/calculate_true_keepers.py
and src/scripts/import_keepers_from_csv.py — SQL statement construction (C2)

The characters below are spelled by code point: 39 is the single quote and
92 the backslash. -/

def quoteChar : Char := Char.ofNat 39

def backslashChar : Char := Char.ofNat 92

/-- Python str.replace of every single quote by backslash-quote
(generate_restoration_sql.py line 123). -/
def escapeQuotes (s : String) : String :=
  String.mk (s.toList.foldr
    (fun c acc => if c == quoteChar then backslashChar :: quoteChar :: acc else c :: acc) [])

/-- A value wrapped in single quotes, as the f-string interpolation does. -/
def quoted (s : String) : String :=
  String.mk [quoteChar] ++ s ++ String.mk [quoteChar]

/-- The VALUES tuple generate_restoration_sql builds for one lineup entry
(generate_restoration_sql.py line 126): the data values of the row are
interpolated directly into the SQL text. -/
def restorationValueTuple (l : LineupEntry) : String :=
  "(" ++ toString l.week ++ ", " ++ quoted l.game_type ++ ", " ++ toString l.team_id
    ++ ", " ++ quoted (escapeQuotes l.team_name) ++ ", " ++ quoted l.position_label
    ++ ", " ++ quoted (escapeQuotes l.player_name) ++ ", " ++ quoted l.espn_id
    ++ ", " ++ quoted l.position_type ++ ", " ++ toString l.sort_order ++ ")"

/-- The INSERT statement generate_restoration_sql emits into the generated
.sql file (generate_restoration_sql.py lines 116-128). -/
def restorationInsertStatement (ls : List LineupEntry) : String :=
  "INSERT INTO temp_csv_lineups VALUES\n"
    ++ String.intercalate ",\n" (ls.map restorationValueTuple) ++ ";\n\n"

/-- Formalization of the claim for the emitted INSERT statements (spec
wording): the statement text is parameterized, that is, it does not depend
on the data values of the rows; values would be bound separately through
placeholders. -/
def restorationInsertParameterized : Prop :=
  ∀ l1 l2 : LineupEntry, restorationValueTuple l1 = restorationValueTuple l2

/-- The season constant shared by the keeper scripts. -/
def SEASON : Int := 2025

/-- The keeper designation date constant. -/
def KEEPER_DATE : String := "2025-08-25 14:30:48"

/-- A row of the keeper output of calculate_true_keepers.py. -/
structure KeeperRecOut where
  team_id : Int
  player_id : Int
  espn_id : Option Int
  name : String
  position : String
deriving DecidableEq

/-- The VALUES line generate_sql of calculate_true_keepers.py writes for one
keeper (line 135): data values are interpolated directly into the SQL text.
A zero or missing ESPN id is falsy in Python and becomes the literal NULL. -/
def keeperValueLine (k : KeeperRecOut) (comma : String) : String :=
  "  (" ++ toString SEASON ++ ", " ++ toString k.team_id ++ ", "
    ++ toString k.player_id ++ ", "
    ++ (match k.espn_id with
        | some e => if e == 0 then "NULL" else toString e
        | none => "NULL")
    ++ ", " ++ quoted KEEPER_DATE ++ ")" ++ comma
    ++ "  -- Team " ++ toString k.team_id ++ ": " ++ k.name
    ++ " (" ++ k.position ++ ")\n"

/-- An SQL parameter value bound separately from the statement text. -/
inductive SqlParam where
  | intP : Int → SqlParam
  | nullP : SqlParam
  | strP : String → SqlParam
deriving DecidableEq

/-- A keepers.csv row as import_keepers_from_csv.py parses it: an empty
ESPN ID cell parses to None. -/
structure KeeperCsvRow where
  team_id : Int
  player_id : Int
  espn_id : Option Int
deriving DecidableEq

/-- The DELETE statement text import_keepers executes (line 31). -/
def importKeepersDeleteSql : String :=
  "DELETE FROM historical_keepers WHERE season_year = %s"

/-- The INSERT statement text import_keepers executes (lines 49-53). -/
def importKeepersInsertSql : String :=
  "INSERT INTO historical_keepers (season_year, fantasy_team_id, player_id, espn_id, designation_date) VALUES (%s, %s, %s, %s, %s)"

/-- The statements import_keepers executes against the database
(import_keepers_from_csv.py lines 31 and 49-55): each is a fixed statement
text paired with the parameter tuples bound to it — one DELETE with the
season, then one executemany INSERT with one parameter tuple per CSV row. -/
def importKeepersExecuted (csv : List KeeperCsvRow) :
    List (String × List (List SqlParam)) :=
  [ (importKeepersDeleteSql, [[SqlParam.intP SEASON]]),
    (importKeepersInsertSql,
      csv.map (fun r =>
        [SqlParam.intP SEASON, SqlParam.intP r.team_id, SqlParam.intP r.player_id,
         (match r.espn_id with
          | some e => SqlParam.intP e
          | none => SqlParam.nullP),
         SqlParam.strP KEEPER_DATE])) ]

/-- A concrete lineup entry whose data shows up in the emitted SQL text. -/
def demoEntryA : LineupEntry :=
  { week := 1, game_type := "primary", team_id := 1, team_name := "Dick Six",
    position_label := "QB1", player_name := "Patrick Mahomes", espn_id := "3139477",
    position_type := "quarterback", sort_order := 1 }

/-- A second concrete lineup entry with different data values. -/
def demoEntryB : LineupEntry :=
  { week := 2, game_type := "bonus", team_id := 4, team_name := "Moneyline",
    position_label := "RB2", player_name := "Josh Jacobs", espn_id := "4047365",
    position_type := "running_back", sort_order := 2 }

/-- Counterexample to claim C2: the INSERT statements generate_restoration_sql
emits are not parameterized — the statement text changes with the row data,
and the data values appear verbatim inside the emitted SQL text. -/
theorem restoration_sql_embeds_data :
    ¬ restorationInsertParameterized
    ∧ strContains (restorationInsertStatement [demoEntryA]) "Patrick Mahomes" = true
    ∧ strContains (restorationInsertStatement [demoEntryA]) "%s" = false := by
  refine ⟨fun hp => ?_, by decide, by decide⟩
  have := hp demoEntryA demoEntryB
  exact absurd this (by decide)

/-- Amended claim C2: the SQL statements the scripts execute directly
against the database are parameterized — the statement texts import_keepers
runs are fixed strings carrying %s placeholders, independent of the CSV
data, which travels only in the separately bound parameter tuples — while
the emitted .sql files interpolate data into the statement text. -/
theorem import_keepers_statements_parameterized (csv : List KeeperCsvRow) :
    (importKeepersExecuted csv).map Prod.fst
        = [importKeepersDeleteSql, importKeepersInsertSql]
    ∧ strContains importKeepersDeleteSql "%s" = true
    ∧ strContains importKeepersInsertSql "%s" = true := by
  refine ⟨rfl, by decide, by decide⟩

/-! ## src/scripts/calculate_true_keepers.py — calculate_keepers (C3)

The drafted player ids form a Python set used only for membership tests;
the embedding models it as a list with list membership. -/

/-- The player info record parse_week1_lineups builds from the ESPN mapping. -/
structure PlayerInfo where
  player_id : Int
  name : String
  position : String
deriving DecidableEq

/-- The per-team body of calculate_keepers (calculate_true_keepers.py line 90). -/
def keepersFor (players : List PlayerInfo) (drafted : List Int) : List PlayerInfo :=
  players.filter (fun p => !(drafted.contains p.player_id))

/-- Embedding of calculate_keepers (calculate_true_keepers.py lines 85-93):
keepers = Week 1 players minus drafted players, per team. -/
def calculate_keepers (week1_by_team : List (Int × List PlayerInfo))
    (drafted : List Int) : List (Int × List PlayerInfo) :=
  week1_by_team.map (fun tp => (tp.1, keepersFor tp.2 drafted))

/-- Claim C3: for every team, the keeper list is exactly the set difference
Week 1 minus drafted — membership in the output holds iff the player is in
the Week 1 list with a player id outside the drafted set — and the keeper
list is a sublist of the Week 1 list, so the relative order is preserved. -/
theorem calculate_keepers_set_difference (week1_by_team : List (Int × List PlayerInfo))
    (drafted : List Int) (team : Int) (players : List PlayerInfo)
    (h : (team, players) ∈ week1_by_team) :
    (team, keepersFor players drafted) ∈ calculate_keepers week1_by_team drafted
    ∧ (∀ p, p ∈ keepersFor players drafted ↔ (p ∈ players ∧ p.player_id ∉ drafted))
    ∧ (keepersFor players drafted).Sublist players := by
  refine ⟨?_, ?_, List.filter_sublist players⟩
  · exact List.mem_map.2 ⟨(team, players), h, rfl⟩
  · intro p
    simp [keepersFor, List.mem_filter]

/-- Witness for C3 at a concrete Week-1 table. -/
theorem calculate_keepers_set_difference_witness :
    (1, keepersFor
        [{ player_id := 10, name := "A", position := "QB" },
         { player_id := 11, name := "B", position := "RB" }] [11])
      ∈ calculate_keepers
          [(1, [{ player_id := 10, name := "A", position := "QB" },
                { player_id := 11, name := "B", position := "RB" }])] [11]
    ∧ (∀ p, p ∈ keepersFor
          [{ player_id := 10, name := "A", position := "QB" },
           { player_id := 11, name := "B", position := "RB" }] [11]
        ↔ (p ∈ [{ player_id := 10, name := "A", position := "QB" },
                { player_id := 11, name := "B", position := "RB" }]
            ∧ p.player_id ∉ ([11] : List Int)))
    ∧ (keepersFor
        [{ player_id := 10, name := "A", position := "QB" },
         { player_id := 11, name := "B", position := "RB" }] [11]).Sublist
        [{ player_id := 10, name := "A", position := "QB" },
         { player_id := 11, name := "B", position := "RB" }] :=
  calculate_keepers_set_difference
    [(1, [{ player_id := 10, name := "A", position := "QB" },
          { player_id := 11, name := "B", position := "RB" }])]
    [11] 1
    [{ player_id := 10, name := "A", position := "QB" },
     { player_id := 11, name := "B", position := "RB" }]
    (by decide)

/-! ## src/restore_lineups.py — find_missing_players (C4)

Tables are lists of rows in the order the database returns them; the
ORDER BY lineup_id LIMIT 1 of the submission query selects the first
returned matching row, which the embedding takes as the head of the
matching rows. A NULL espn_id column is modelled as none and never equals
a bound string parameter. -/

/-- A row of nfl_players as the script queries it. -/
structure NflPlayer where
  player_id : Int
  espn_id : Option String
  display_name : String
deriving DecidableEq

/-- A row of lineup_submissions. -/
structure LineupSub where
  lineup_id : Int
  fantasy_team_id : Int
  week_number : Int
  game_type : String
  season_year : Int
deriving DecidableEq

/-- A row of lineup_positions as restore_lineups.py queries it. -/
structure LPosRow where
  position_id : Int
  lineup_id : Int
  player_id : Int
deriving DecidableEq

/-- The database state find_missing_players reads. -/
structure RDb where
  nfl_players : List NflPlayer
  lineup_submissions : List LineupSub
  lineup_positions : List LPosRow
deriving DecidableEq

/-- A CSV lineup entry as load_csv_lineups builds it: the ESPN ID is the
stripped raw cell when the raw cell is truthy, and None otherwise. -/
structure RestoreLineup where
  week : Int
  game_type : String
  team_id : Int
  team_name : String
  position : String
  player_name : String
  espn_id : Option String
deriving DecidableEq

/-- The player lookup query (restore_lineups.py lines 54-58). -/
def findPlayerByEspn (db : RDb) (e : String) : Option NflPlayer :=
  db.nfl_players.find? (fun p => p.espn_id == some e)

/-- The lineup submission query (restore_lineups.py lines 66-74). -/
def findSubmission (db : RDb) (team_id week : Int) (gt : String) : Option LineupSub :=
  (db.lineup_submissions.filter (fun s =>
    s.fantasy_team_id == team_id && s.week_number == week
      && s.game_type == gt && s.season_year == 2025)).head?

/-- The existing-position check (restore_lineups.py lines 82-87). -/
def hasPositionRow (db : RDb) (lid pid : Int) : Bool :=
  (db.lineup_positions.find? (fun lp => lp.lineup_id == lid && lp.player_id == pid)).isSome

/-- A restoration record appended to missing_players (lines 94-103). -/
structure MissingRec where
  lineup_id : Int
  player_id : Int
  player_name : String
  team_id : Int
  team_name : String
  week : Int
  position : String
  espn_id : String
deriving DecidableEq

/-- One iteration of the loop of find_missing_players (restore_lineups.py
lines 49-105): the record produced for one CSV entry, or none when a check
fails. An absent or empty ESPN ID is falsy and skips the entry. -/
def processEntry (db : RDb) (l : RestoreLineup) : Option MissingRec :=
  match l.espn_id with
  | none => none
  | some e =>
    if e == "" then none
    else
      match findPlayerByEspn db e with
      | none => none
      | some p =>
        match findSubmission db l.team_id l.week l.game_type with
        | none => none
        | some s =>
          if hasPositionRow db s.lineup_id p.player_id then none
          else some { lineup_id := s.lineup_id, player_id := p.player_id,
                      player_name := p.display_name, team_id := l.team_id,
                      team_name := l.team_name, week := l.week,
                      position := l.position, espn_id := e }

/-- Embedding of find_missing_players (restore_lineups.py lines 42-109). -/
def find_missing_players (db : RDb) (csv_lineups : List RestoreLineup) :
    List MissingRec :=
  csv_lineups.filterMap (processEntry db)

/-- Claim C4: an entry yields a restoration record iff it has a nonempty
ESPN ID, a player with that ESPN ID exists, a 2025 submission for the team,
week and game type exists, and no lineup_positions row links that
submission to that player; the query functions succeed exactly when a
matching table row exists. -/
theorem find_missing_players_inclusion (db : RDb) (l : RestoreLineup) :
    ((processEntry db l).isSome ↔
      ∃ e p s, l.espn_id = some e ∧ e ≠ ""
        ∧ findPlayerByEspn db e = some p
        ∧ findSubmission db l.team_id l.week l.game_type = some s
        ∧ hasPositionRow db s.lineup_id p.player_id = false)
    ∧ (∀ e, (findPlayerByEspn db e).isSome
        ↔ ∃ p ∈ db.nfl_players, p.espn_id = some e)
    ∧ (∀ t w g, (findSubmission db t w g).isSome
        ↔ ∃ s ∈ db.lineup_submissions, s.fantasy_team_id = t ∧ s.week_number = w
            ∧ s.game_type = g ∧ s.season_year = 2025)
    ∧ (∀ lid pid, hasPositionRow db lid pid = true
        ↔ ∃ lp ∈ db.lineup_positions, lp.lineup_id = lid ∧ lp.player_id = pid) := by
  refine ⟨?_, ?_, ?_, ?_⟩
  · constructor
    · intro hs
      rcases he : l.espn_id with _ | e
      · simp [processEntry, he] at hs
      · by_cases hee : (e == "") = true
        · simp [processEntry, he, hee] at hs
        · rcases hp : findPlayerByEspn db e with _ | p
          · simp [processEntry, he, hee, hp] at hs
          · rcases hsub : findSubmission db l.team_id l.week l.game_type with _ | s
            · simp [processEntry, he, hee, hp, hsub] at hs
            · by_cases hpos : hasPositionRow db s.lineup_id p.player_id = true
              · simp [processEntry, he, hee, hp, hsub, hpos] at hs
              · exact ⟨e, p, s, rfl, by simpa using hee, hp, rfl,
                  by simpa using hpos⟩
    · rintro ⟨e, p, s, he, hee, hp, hsub, hpos⟩
      have hee2 : (e == "") = false := by simpa using hee
      simp [processEntry, he, hee2, hp, hsub, hpos]
  · intro e
    simp [findPlayerByEspn, List.find?_isSome]
  · intro t w g
    constructor
    · intro hs
      cases hh : (db.lineup_submissions.filter (fun s =>
          s.fantasy_team_id == t && s.week_number == w
            && s.game_type == g && s.season_year == 2025)).head? with
      | none => rw [findSubmission, hh] at hs; simp at hs
      | some s =>
        have hmem := List.mem_of_mem_head? hh
        have hms := List.mem_filter.1 hmem
        refine ⟨s, hms.1, ?_⟩
        have hc := hms.2
        simp only [Bool.and_eq_true, beq_iff_eq] at hc
        exact ⟨hc.1.1.1, hc.1.1.2, hc.1.2, hc.2⟩
    · rintro ⟨s, hmem, h1, h2, h3, h4⟩
      have hfil : s ∈ db.lineup_submissions.filter (fun x =>
          x.fantasy_team_id == t && x.week_number == w
            && x.game_type == g && x.season_year == 2025) := by
        refine List.mem_filter.2 ⟨hmem, ?_⟩
        simp [h1, h2, h3, h4]
      have hne := List.ne_nil_of_mem hfil
      rw [findSubmission]
      exact List.head?_isSome.mpr hne
  · intro lid pid
    simp [hasPositionRow, List.find?_isSome]

/-- A concrete database for the C4 witness. -/
def demoRDb : RDb where
  nfl_players := [{ player_id := 55, espn_id := some "3139477", display_name := "Patrick Mahomes" }]
  lineup_submissions := [{ lineup_id := 9, fantasy_team_id := 1, week_number := 1, game_type := "primary", season_year := 2025 }]
  lineup_positions := []

/-- A concrete CSV lineup entry for the C4 witness. -/
def demoRestoreLineup : RestoreLineup where
  week := 1
  game_type := "primary"
  team_id := 1
  team_name := "Dick Six"
  position := "QB1"
  player_name := "Patrick Mahomes"
  espn_id := some "3139477"

/-- Witness for C4: a concrete database and CSV entry with a missing player. -/
theorem find_missing_players_inclusion_witness :
    (processEntry demoRDb demoRestoreLineup).isSome :=
  (find_missing_players_inclusion demoRDb demoRestoreLineup).1.2
    ⟨"3139477",
      { player_id := 55, espn_id := some "3139477", display_name := "Patrick Mahomes" },
      { lineup_id := 9, fantasy_team_id := 1, week_number := 1, game_type := "primary", season_year := 2025 },
      rfl, by decide, by decide, by decide, by decide⟩

/-! ## src/scripts/import_keepers_from_csv.py — import_keepers (C6, C7)

The database is a historical_keepers table plus an opaque remainder
standing for every other table; import_keepers only ever touches
historical_keepers: the DELETE removes the season-2025 rows and the
batch INSERT appends one row per CSV record. -/

/-- A row of historical_keepers. -/
structure HKRow where
  season_year : Int
  fantasy_team_id : Int
  player_id : Int
  espn_id : Option Int
  designation_date : String
deriving DecidableEq

/-- The database as import_keepers sees it: historical_keepers plus the
rest of the database, untouched by the script. -/
structure KDb (T : Type) where
  historical_keepers : List HKRow
  other_tables : T
deriving DecidableEq

/-- The historical_keepers row inserted for one CSV record (lines 44 and 49-55). -/
def keeperRowOfCsv (r : KeeperCsvRow) : HKRow :=
  { season_year := SEASON, fantasy_team_id := r.team_id, player_id := r.player_id,
    espn_id := r.espn_id, designation_date := KEEPER_DATE }

/-- Embedding of import_keepers (import_keepers_from_csv.py lines 24-58):
delete every season-2025 row, then insert one row per CSV record. -/
def import_keepers {T : Type} (db : KDb T) (csv : List KeeperCsvRow) : KDb T :=
  { db with historical_keepers :=
      db.historical_keepers.filter (fun r => !(r.season_year == SEASON))
        ++ csv.map keeperRowOfCsv }

/-- Claim C6: import_keepers deletes only season-2025 rows and inserts only
season-2025 rows — the non-2025 part of historical_keepers and every other
table are unchanged, and the 2025 part afterwards is exactly the CSV rows,
all carrying season_year 2025. -/
theorem import_keepers_frame {T : Type} (db : KDb T) (csv : List KeeperCsvRow) :
    (import_keepers db csv).other_tables = db.other_tables
    ∧ (import_keepers db csv).historical_keepers.filter
          (fun r => !(r.season_year == SEASON))
        = db.historical_keepers.filter (fun r => !(r.season_year == SEASON))
    ∧ (import_keepers db csv).historical_keepers.filter
          (fun r => r.season_year == SEASON)
        = csv.map keeperRowOfCsv
    ∧ (csv.map keeperRowOfCsv).all (fun r => r.season_year == SEASON) = true := by
  have hff : (fun (r : HKRow) => (r.season_year == SEASON) && !(r.season_year == SEASON))
      = fun _ => false := by
    funext r
    cases h : (r.season_year == SEASON) <;> simp [h]
  have h2 : (csv.map keeperRowOfCsv).filter (fun r => r.season_year == SEASON)
      = csv.map keeperRowOfCsv := by
    apply List.filter_eq_self.2
    intro a ha
    rcases List.mem_map.1 ha with ⟨x, _, rfl⟩
    simp [keeperRowOfCsv]
  refine ⟨rfl, ?_, ?_, ?_⟩
  · simp [import_keepers, List.filter_append, List.filter_filter, keeperRowOfCsv,
      List.filter_map, Function.comp]
  · simp only [import_keepers]
    rw [List.filter_append, List.filter_filter, hff, List.filter_false, h2,
      List.nil_append]
  · simp [List.all_eq_true, keeperRowOfCsv]

/-- Claim C7: import_keepers is idempotent, and the resulting
historical_keepers contents do not depend on which season-2025 rows existed
beforehand. -/
theorem import_keepers_idempotent {T : Type} (db db1 db2 : KDb T)
    (csv : List KeeperCsvRow) :
    import_keepers (import_keepers db csv) csv = import_keepers db csv
    ∧ (db1.historical_keepers.filter (fun r => !(r.season_year == SEASON))
          = db2.historical_keepers.filter (fun r => !(r.season_year == SEASON)) →
        (import_keepers db1 csv).historical_keepers
          = (import_keepers db2 csv).historical_keepers) := by
  constructor
  · cases db with
    | mk hk rest =>
      simp [import_keepers, List.filter_append, List.filter_filter, keeperRowOfCsv,
        List.filter_map, Function.comp]
  · intro h
    simp [import_keepers, h]

/-- A keeper database with a stale season-2025 row, for the C7 witness. -/
def demoKDbA : KDb Unit where
  historical_keepers :=
    [{ season_year := 2025, fantasy_team_id := 3, player_id := 77, espn_id := none, designation_date := "old" },
     { season_year := 2024, fantasy_team_id := 1, player_id := 5, espn_id := some 42, designation_date := "d" }]
  other_tables := ()

/-- The same database without the season-2025 row, for the C7 witness. -/
def demoKDbB : KDb Unit where
  historical_keepers :=
    [{ season_year := 2024, fantasy_team_id := 1, player_id := 5, espn_id := some 42, designation_date := "d" }]
  other_tables := ()

/-- A concrete keepers.csv input for the C7 witness. -/
def demoKeeperCsv : List KeeperCsvRow := [{ team_id := 2, player_id := 9, espn_id := some 8 }]

/-- Witness for C7: two databases differing only in their season-2025 rows
produce the same keeper table. -/
theorem import_keepers_idempotent_witness :
    (import_keepers demoKDbA demoKeeperCsv).historical_keepers
      = (import_keepers demoKDbB demoKeeperCsv).historical_keepers :=
  (import_keepers_idempotent demoKDbA demoKDbA demoKDbB demoKeeperCsv).2 (by decide)

/-! ## src/scripts/import_lineups_to_positions.py — bonus lineup skip (C8)

The script caches check_week_has_bonus_games results per week and season;
the weekly_schedule table is never modified during a run, so the cache is
semantically transparent and the embedding queries the table directly.
The auto-increment lineup id is carried explicitly in the state. -/

/-- A row of weekly_schedule as the script queries it. -/
structure ScheduleGame where
  week_number : Int
  season_year : Int
  game_type : String
deriving DecidableEq

/-- A row of lineup_positions as import_lineups_to_positions.py inserts it. -/
structure LineupPos where
  lineup_id : Int
  position_type : String
  player_id : Int
  nfl_team_id : Option Int
  sort_order : Nat
deriving DecidableEq

/-- The database state the import touches. -/
structure LDb where
  weekly_schedule : List ScheduleGame
  lineup_submissions : List LineupSub
  lineup_positions : List LineupPos
  next_lineup_id : Int
deriving DecidableEq

/-- Embedding of check_week_has_bonus_games (import_lineups_to_positions.py
lines 59-73): COUNT(*) of bonus games for the week and season is positive. -/
def check_week_has_bonus_games (db : LDb) (week season_year : Int) : Bool :=
  decide (0 < (db.weekly_schedule.filter (fun g =>
    g.week_number == week && g.season_year == season_year
      && g.game_type == "bonus")).length)

/-- Embedding of get_or_create_lineup_submission
(import_lineups_to_positions.py lines 75-100): returns the lineup id (none
for a bonus lineup in a week without bonus games) together with the
resulting database state. -/
def get_or_create_lineup_submission (db : LDb) (team_id week : Int)
    (game_type : String) (season_year : Int) : Option Int × LDb :=
  if game_type == "bonus" && !(check_week_has_bonus_games db week season_year) then
    (none, db)
  else
    match db.lineup_submissions.find? (fun s =>
        s.fantasy_team_id == team_id && s.week_number == week
          && s.game_type == game_type && s.season_year == season_year) with
    | some s => (some s.lineup_id, db)
    | none =>
      (some db.next_lineup_id,
       { db with
          lineup_submissions := db.lineup_submissions
            ++ [{ lineup_id := db.next_lineup_id, fantasy_team_id := team_id,
                  week_number := week, game_type := game_type,
                  season_year := season_year }],
          next_lineup_id := db.next_lineup_id + 1 })

/-- A pending position row of one lineup group, before the lineup id is known. -/
structure PosInsert where
  position_type : String
  player_id : Int
  nfl_team_id : Option Int
  sort_order : Nat
deriving DecidableEq

/-- One iteration of the insertion loop of main
(import_lineups_to_positions.py lines 217-244): get or create the
submission, skip the whole group when it is none, otherwise delete the
existing positions of that lineup and insert the group. -/
def processLineupGroup (db : LDb) (team_id week : Int) (game_type : String)
    (season_year : Int) (positions : List PosInsert) : LDb :=
  match get_or_create_lineup_submission db team_id week game_type season_year with
  | (none, db2) => db2
  | (some lid, db2) =>
    { db2 with lineup_positions :=
        db2.lineup_positions.filter (fun p => !(p.lineup_id == lid))
          ++ positions.map (fun p =>
            { lineup_id := lid, position_type := p.position_type,
              player_id := p.player_id, nfl_team_id := p.nfl_team_id,
              sort_order := p.sort_order }) }

/-- Claim C8: get_or_create_lineup_submission returns none exactly when the
game type is bonus and weekly_schedule has no bonus game for that week and
season; in that case the state is unchanged and the caller skips the whole
group, so no submission is created and no positions are deleted or
inserted. -/
theorem get_or_create_bonus_none_iff (db : LDb) (team_id week : Int)
    (game_type : String) (season_year : Int) (positions : List PosInsert) :
    ((get_or_create_lineup_submission db team_id week game_type season_year).1 = none
      ↔ (game_type = "bonus"
          ∧ ¬ ∃ g ∈ db.weekly_schedule, g.week_number = week
              ∧ g.season_year = season_year ∧ g.game_type = "bonus"))
    ∧ ((get_or_create_lineup_submission db team_id week game_type season_year).1 = none →
        (get_or_create_lineup_submission db team_id week game_type season_year).2 = db
          ∧ processLineupGroup db team_id week game_type season_year positions = db) := by
  have hchar : check_week_has_bonus_games db week season_year = false
      ↔ ¬ ∃ g ∈ db.weekly_schedule, g.week_number = week
          ∧ g.season_year = season_year ∧ g.game_type = "bonus" := by
    rw [check_week_has_bonus_games, decide_eq_false_iff_not,
      ← List.countP_eq_length_filter, List.countP_pos_iff]
    simp only [Bool.and_eq_true, beq_iff_eq]
    constructor
    · intro h hex
      rcases hex with ⟨g, hg, h1, h2, h3⟩
      exact h ⟨g, hg, ⟨⟨h1, h2⟩, h3⟩⟩
    · intro h hex
      rcases hex with ⟨g, hg, ⟨⟨h1, h2⟩, h3⟩⟩
      exact h ⟨g, hg, h1, h2, h3⟩
  by_cases hb : game_type = "bonus"
  · by_cases hcb : check_week_has_bonus_games db week season_year = true
    · have hcond : (game_type == "bonus"
          && !(check_week_has_bonus_games db week season_year)) = false := by
        simp [hb, hcb]
      constructor
      · rw [get_or_create_lineup_submission, if_neg (by simp [hcond])]
        cases hf : db.lineup_submissions.find? (fun s =>
            s.fantasy_team_id == team_id && s.week_number == week
              && s.game_type == game_type && s.season_year == season_year) with
        | none =>
          simp only [hf]
          constructor
          · intro h; simp at h
          · rintro ⟨-, hno⟩
            exact absurd hcb (by simpa [hchar] using hno)
        | some s =>
          simp only [hf]
          constructor
          · intro h; simp at h
          · rintro ⟨-, hno⟩
            exact absurd hcb (by simpa [hchar] using hno)
      · intro h
        rw [get_or_create_lineup_submission, if_neg (by simp [hcond])] at h
        cases hf : db.lineup_submissions.find? (fun s =>
            s.fantasy_team_id == team_id && s.week_number == week
              && s.game_type == game_type && s.season_year == season_year) with
        | none => rw [hf] at h; simp at h
        | some s => rw [hf] at h; simp at h
    · have hcf : check_week_has_bonus_games db week season_year = false := by
        simpa using hcb
      have hcond : (game_type == "bonus"
          && !(check_week_has_bonus_games db week season_year)) = true := by
        simp [hb, hcf]
      have hres : get_or_create_lineup_submission db team_id week game_type season_year
          = (none, db) := by
        rw [get_or_create_lineup_submission, if_pos hcond]
      constructor
      · rw [hres]
        simp only [true_iff]
        exact ⟨hb, hchar.1 hcf⟩
      · intro _
        refine ⟨by rw [hres], ?_⟩
        rw [processLineupGroup, hres]
  · have hcond : (game_type == "bonus"
        && !(check_week_has_bonus_games db week season_year)) = false := by
      simp [hb]
    constructor
    · rw [get_or_create_lineup_submission, if_neg (by simp [hcond])]
      cases hf : db.lineup_submissions.find? (fun s =>
          s.fantasy_team_id == team_id && s.week_number == week
            && s.game_type == game_type && s.season_year == season_year) with
      | none =>
        simp only [hf]
        constructor
        · intro h; simp at h
        · rintro ⟨hb2, -⟩; exact absurd hb2 hb
      | some s =>
        simp only [hf]
        constructor
        · intro h; simp at h
        · rintro ⟨hb2, -⟩; exact absurd hb2 hb
    · intro h
      rw [get_or_create_lineup_submission, if_neg (by simp [hcond])] at h
      cases hf : db.lineup_submissions.find? (fun s =>
          s.fantasy_team_id == team_id && s.week_number == week
            && s.game_type == game_type && s.season_year == season_year) with
      | none => rw [hf] at h; simp at h
      | some s => rw [hf] at h; simp at h

/-- A database whose schedule has no bonus game, for the C8 witness. -/
def demoLDb : LDb where
  weekly_schedule := [{ week_number := 3, season_year := 2025, game_type := "primary" }]
  lineup_submissions := []
  lineup_positions := [{ lineup_id := 1, position_type := "quarterback", player_id := 5, nfl_team_id := none, sort_order := 1 }]
  next_lineup_id := 2

/-- A pending position group for the C8 witness. -/
def demoPositions : List PosInsert :=
  [{ position_type := "quarterback", player_id := 7, nfl_team_id := some 12, sort_order := 1 }]

/-- Witness for C8: a bonus group in a week without bonus games leaves the
database untouched. -/
theorem get_or_create_bonus_none_iff_witness :
    (get_or_create_lineup_submission demoLDb 1 3 "bonus" 2025).2 = demoLDb
      ∧ processLineupGroup demoLDb 1 3 "bonus" 2025 demoPositions = demoLDb :=
  (get_or_create_bonus_none_iff demoLDb 1 3 "bonus" 2025 demoPositions).2 (by decide)

/-! ## src/scripts/find_missing_keepers.py — truncated candidate lists (C10)

The current keeper and Week-1 tables are Python defaultdicts from team id
to player lists, modelled as functions; the drafted table is used only for
key membership and is modelled as a list of player ids. -/

/-- A current-roster row as get_current_keepers builds it. -/
structure CurKeeper where
  player_id : Int
  name : String
  espn_id : Option Int
  position : String
deriving DecidableEq

/-- The EXPECTED_COUNTS table (find_missing_keepers.py lines 24-27). -/
def EXPECTED_COUNTS : List (Int × Nat) :=
  [(1, 12), (2, 11), (3, 12), (4, 12), (5, 13),
   (6, 12), (7, 13), (8, 12), (9, 12), (10, 11)]

/-- The expected keeper count of a team. -/
def expectedOf (t : Int) : Nat :=
  ((EXPECTED_COUNTS.find? (fun p => p.1 == t)).map Prod.snd).getD 0

/-- The candidate filter (find_missing_keepers.py lines 136-141): Week-1
players neither on the current roster nor drafted. -/
def potential_missing (week1 : List PlayerInfo) (current_ids drafted : List Int) :
    List PlayerInfo :=
  week1.filter (fun p =>
    !(current_ids.contains p.player_id) && !(drafted.contains p.player_id))

/-- The per-team body of the loop of main (find_missing_keepers.py lines
123-151): the candidate list recorded for a team, empty when nothing is
recorded. The Python slice of a positive count is List.take of its value. -/
def missingForTeam (expected : Int) (current : List CurKeeper)
    (week1 : List PlayerInfo) (drafted : List Int) : List PlayerInfo :=
  let missing_count : Int := expected - current.length
  if 0 < missing_count then
    let pm := potential_missing week1 (current.map (fun k => k.player_id)) drafted
    if pm.isEmpty then [] else pm.take missing_count.toNat
  else []

/-- The loop of main over teams 1..10 (find_missing_keepers.py lines
120-151), collecting missing_by_team. -/
def missing_by_team (current : Int → List CurKeeper) (week1 : Int → List PlayerInfo)
    (drafted : List Int) : List (Int × List PlayerInfo) :=
  (((List.range 10).map (fun k => ((k + 1 : Nat) : Int)))).filterMap (fun t =>
    let m := missingForTeam (expectedOf t) (current t) (week1 t) drafted
    if m.isEmpty then none else some (t, m))

/-- Per-team facts for C10: the recorded list is at most the shortfall long,
nothing is recorded when the roster already meets the expected count, and a
positive shortfall truncates the candidate list to exactly the shortfall. -/
theorem missingForTeam_truncated (expected : Int) (current : List CurKeeper)
    (week1 : List PlayerInfo) (drafted : List Int) :
    (missingForTeam expected current week1 drafted).length
        ≤ (expected - (current.length : Int)).toNat
    ∧ (expected ≤ (current.length : Int) →
        missingForTeam expected current week1 drafted = [])
    ∧ (0 < expected - (current.length : Int) →
        missingForTeam expected current week1 drafted
          = (potential_missing week1 (current.map (fun k => k.player_id)) drafted).take
              (expected - (current.length : Int)).toNat) := by
  by_cases h : 0 < expected - (current.length : Int)
  · by_cases hpm : (potential_missing week1 (current.map (fun k => k.player_id))
        drafted).isEmpty = true
    · have hnil : potential_missing week1 (current.map (fun k => k.player_id)) drafted
          = [] := by simpa [List.isEmpty_iff] using hpm
      refine ⟨?_, fun hle => ?_, fun _ => ?_⟩
      · simp [missingForTeam, h, hpm]
      · omega
      · simp [missingForTeam, h, hpm, hnil]
    · refine ⟨?_, fun hle => ?_, fun _ => ?_⟩
      · simp only [missingForTeam, if_pos h, if_neg hpm]
        exact (List.length_take _ _).le.trans (by omega)
      · omega
      · simp [missingForTeam, h, hpm]
  · refine ⟨?_, fun _ => ?_, fun hpos => absurd hpos h⟩
    · simp [missingForTeam, h]
    · simp [missingForTeam, h]

/-- Claim C10: every team entry recorded by find_missing_keepers carries at
most max(0, expected - current) candidates, equal to the candidate list
truncated to that shortfall, and a team whose current count meets its
expected count records nothing. -/
theorem find_missing_keepers_truncation (current : Int → List CurKeeper)
    (week1 : Int → List PlayerInfo) (drafted : List Int) (t : Int)
    (m : List PlayerInfo) (hmem : (t, m) ∈ missing_by_team current week1 drafted) :
    m.length ≤ (expectedOf t - ((current t).length : Int)).toNat
    ∧ m = (potential_missing (week1 t) ((current t).map (fun k => k.player_id))
          drafted).take (expectedOf t - ((current t).length : Int)).toNat
    ∧ ¬ (expectedOf t : Int) ≤ ((current t).length : Int) := by
  rcases List.mem_filterMap.1 hmem with ⟨a, -, hfa⟩
  by_cases hie : (missingForTeam (expectedOf a) (current a) (week1 a) drafted).isEmpty
      = true
  · rw [if_pos hie] at hfa
    cases hfa
  · rw [if_neg hie] at hfa
    have hta : t = a ∧ m = missingForTeam (expectedOf a) (current a) (week1 a) drafted := by
      constructor
      · exact congrArg Prod.fst (Option.some.inj hfa) |>.symm
      · exact congrArg Prod.snd (Option.some.inj hfa) |>.symm
    rcases hta with ⟨rfl, rfl⟩
    have hfacts := missingForTeam_truncated (expectedOf t) (current t) (week1 t) drafted
    have hpos : 0 < expectedOf t - ((current t).length : Int) := by
      by_contra hnp
      have hle : (expectedOf t : Int) ≤ ((current t).length : Int) := by omega
      have := hfacts.2.1 hle
      rw [this] at hie
      simp at hie
    refine ⟨hfacts.1, hfacts.2.2 hpos, by omega⟩

/-- A concrete current-roster table for the C10 witness: team 1 has 11 of
its 12 expected keepers. -/
def demoCurrent : Int → List CurKeeper := fun t =>
  if t = 1 then
    (List.range 11).map (fun k =>
      { player_id := (k : Int), name := "P", espn_id := none, position := "QB" })
  else []

/-- A concrete Week-1 table for the C10 witness: team 1 has two candidates
off the roster, so the list must be truncated to one. -/
def demoWeek1 : Int → List PlayerInfo := fun t =>
  if t = 1 then
    [{ player_id := 100, name := "A", position := "QB" },
     { player_id := 101, name := "B", position := "RB" }]
  else []

/-- Witness for C10 at the concrete tables. -/
theorem find_missing_keepers_truncation_witness :
    (missingForTeam (expectedOf 1) (demoCurrent 1) (demoWeek1 1) []).length
        ≤ (expectedOf 1 - ((demoCurrent 1).length : Int)).toNat
    ∧ missingForTeam (expectedOf 1) (demoCurrent 1) (demoWeek1 1) []
        = (potential_missing (demoWeek1 1) ((demoCurrent 1).map (fun k => k.player_id))
            []).take (expectedOf 1 - ((demoCurrent 1).length : Int)).toNat
    ∧ ¬ (expectedOf 1 : Int) ≤ (((demoCurrent 1).length : Nat) : Int) :=
  find_missing_keepers_truncation demoCurrent demoWeek1 [] 1
    (missingForTeam (expectedOf 1) (demoCurrent 1) (demoWeek1 1) []) (by decide)

end GBRFL
